import Mathlib

/-!
Verification of libwebcam's dynamic-control support (`libwebcam/dynctrl.c`)
against its design specification.

The development shallowly embeds the document-resolution and
device-application engine: C strings are modelled as `List Char` (the
content of a NUL-terminated buffer, without the terminator; reading at
index `s.length` reads the terminator, reading past it leaves the
allocation), machine integers as `Int`/`Nat` with explicit wrapping where
the C code narrows, fallible operations as `Option`, and the ioctl-based
transport as an explicit outcome parameter.  Collaborator services that
are out of the engine's scope (libxml2 parsing, iconv transcoding, device
enumeration, the kernel driver) appear only as the abstract inputs they
hand to the engine.
-/

set_option autoImplicit false

namespace Webcam

/-- Result codes of libwebcam (`webcam.h`).  `C_SUCCESS` is numerically
zero there; every other code is nonzero, so C's `if (ret)` tests are
modelled as `ret ≠ C_SUCCESS`. -/
inductive CResult where
  | C_SUCCESS
  | C_NOT_IMPLEMENTED
  | C_INIT_ERROR
  | C_INVALID_ARG
  | C_INVALID_DEVICE
  | C_NO_MEMORY
  | C_PARSE_ERROR
  | C_V4L2_ERROR
  | C_CANNOT_WRITE
  | C_BUFFER_TOO_SMALL
  deriving DecidableEq

open CResult

/-- C `isspace` in the C locale: space, \t, \n, \v, \f, \r. -/
def isspaceC (c : Char) : Bool :=
  decide (c.toNat = 32 ∨ (9 ≤ c.toNat ∧ c.toNat ≤ 13))

/-- C `isxdigit`. -/
def isxdigitC (c : Char) : Bool :=
  decide ((48 ≤ c.toNat ∧ c.toNat ≤ 57) ∨ (65 ≤ c.toNat ∧ c.toNat ≤ 70) ∨
          (97 ≤ c.toNat ∧ c.toNat ≤ 102))

/-- C `tolower` on ASCII. -/
def tolowerC (c : Char) : Char :=
  if 65 ≤ c.toNat ∧ c.toNat ≤ 90 then Char.ofNat (c.toNat + 32) else c

/-- Read character `i` of a NUL-terminated C string modelled as its
content list: indices below `s.length` read the content, index
`s.length` reads the terminator, and larger indices are outside the
allocation (the total default keeps the embedding executable; the
in-bounds question is tracked separately by `hex_decode_byte_checked`). -/
def cstr_get (s : List Char) (i : Nat) : Char := s.getD i (Char.ofNat 0)

/-- Truncation of an `int` expression assigned to a `__u8`. -/
def toU8 (x : Int) : Nat := (x % 256).toNat

/-- Truncation of an `int` expression assigned to a `__u16`. -/
def toU16 (x : Int) : Nat := (x % 65536).toNat

/-- Truncation of an `int` expression assigned to a `__u32`. -/
def toU32 (x : Int) : Nat := (x % 4294967296).toNat

/-- Macro `HEX_DECODE_CHAR`:
`(c) >= '0' && (c) <= '9' ? (c) - '0' : tolower(c) - 'a' + 0xA`.
The result is an `int` and can be negative for non-hex characters,
exactly as in C. -/
def hex_decode_char (c : Char) : Int :=
  if 48 ≤ c.toNat ∧ c.toNat ≤ 57 then (c.toNat : Int) - 48
  else ((tolowerC c).toNat : Int) - 97 + 10

/-- Macro `HEX_DECODE_BYTE` at offset `i` of the string:
`(HEX_DECODE_CHAR(cc[0]) << 4) + HEX_DECODE_CHAR(cc[1])`
(the shift is written as multiplication; its operand is a small int). -/
def hex_decode_byte (s : List Char) (i : Nat) : Int :=
  hex_decode_char (cstr_get s i) * 16 + hex_decode_char (cstr_get s (i + 1))

/-- `guid_to_byte_array`: converts a GUID string into its 16-byte stored
form.  The C function assumes the argument is a valid GUID string and
performs no validation; it unconditionally reads the fixed character
offsets listed here (maximal index 35). -/
def guid_to_byte_array (s : List Char) : List Nat :=
  [toU8 (hex_decode_byte s 6), toU8 (hex_decode_byte s 4),
   toU8 (hex_decode_byte s 2), toU8 (hex_decode_byte s 0),
   toU8 (hex_decode_byte s 11), toU8 (hex_decode_byte s 9),
   toU8 (hex_decode_byte s 16), toU8 (hex_decode_byte s 14),
   toU8 (hex_decode_byte s 19), toU8 (hex_decode_byte s 21),
   toU8 (hex_decode_byte s 24), toU8 (hex_decode_byte s 26),
   toU8 (hex_decode_byte s 28), toU8 (hex_decode_byte s 30),
   toU8 (hex_decode_byte s 32), toU8 (hex_decode_byte s 34)]

/-- A bounds-checked reading of `HEX_DECODE_BYTE` at offset `i`: the
allocation of a C string of content length `n` covers indices `0..n`
(content plus terminator), so the two-character read at `i` stays inside
the allocation exactly when `i + 1 ≤ s.length`. -/
def hex_decode_byte_checked (s : List Char) (i : Nat) : Option Nat :=
  if i + 1 ≤ s.length then some (toU8 (hex_decode_byte s i)) else none

/-- The character offsets at which `guid_to_byte_array` starts its
two-character reads, in the order it performs them. -/
def guid_read_offsets : List Nat :=
  [6, 4, 2, 0, 11, 9, 16, 14, 19, 21, 24, 26, 28, 30, 32, 34]

/-- `guid_to_byte_array` with every character read bounds-checked:
returns `none` when one of the fixed offsets it reads lies outside the
string's allocation (see `hex_decode_byte_checked`). -/
def guid_to_byte_array_checked (s : List Char) : Option (List Nat) :=
  if guid_read_offsets.all (fun i => (hex_decode_byte_checked s i).isSome) then
    some (guid_to_byte_array s)
  else none

/-- The bytes of the first textual GUID group (characters 0-7) in the
order they appear in the text. -/
def guid_text_group1 (s : List Char) : List Nat :=
  [toU8 (hex_decode_byte s 0), toU8 (hex_decode_byte s 2),
   toU8 (hex_decode_byte s 4), toU8 (hex_decode_byte s 6)]

/-- The bytes of the second textual GUID group (characters 9-12) in text
order. -/
def guid_text_group2 (s : List Char) : List Nat :=
  [toU8 (hex_decode_byte s 9), toU8 (hex_decode_byte s 11)]

/-- The bytes of the third textual GUID group (characters 14-17) in text
order. -/
def guid_text_group3 (s : List Char) : List Nat :=
  [toU8 (hex_decode_byte s 14), toU8 (hex_decode_byte s 16)]

/-- The bytes of the fourth textual GUID group (characters 19-22) in text
order. -/
def guid_text_group4 (s : List Char) : List Nat :=
  [toU8 (hex_decode_byte s 19), toU8 (hex_decode_byte s 21)]

/-- The bytes of the trailing 12 hex digits (characters 24-35) in text
order. -/
def guid_text_group5 (s : List Char) : List Nat :=
  [toU8 (hex_decode_byte s 24), toU8 (hex_decode_byte s 26),
   toU8 (hex_decode_byte s 28), toU8 (hex_decode_byte s 30),
   toU8 (hex_decode_byte s 32), toU8 (hex_decode_byte s 34)]

/-- `is_valid_guid`.  The C source reads
`if (string == NULL && strlen(string) != 36) return 0;`: for a non-null
string the conjunction short-circuits to false, so the length test never
executes (and for a null string the `strlen` call would dereference
NULL).  For the non-null strings modelled here the guard is therefore a
no-op and only the 36 positional checks remain; a string shorter than 36
characters fails the loop at its terminator, never reading past it. -/
def is_valid_guid (s : List Char) : Bool :=
  (List.range 36).all fun i =>
    if i = 8 ∨ i = 13 ∨ i = 18 ∨ i = 23 then cstr_get s i == '-'
    else isxdigitC (cstr_get s i)

/-- Numeric value of a hexadecimal digit character (only applied to
characters already known to be digits of the relevant base). -/
def digit_val (c : Char) : Nat :=
  if c.toNat ≤ 57 then c.toNat - 48
  else if c.toNat ≤ 70 then c.toNat - 55
  else c.toNat - 87

/-- Decimal digit test. -/
def isdigit10 (c : Char) : Bool := decide (48 ≤ c.toNat ∧ c.toNat ≤ 57)

/-- Octal digit test. -/
def isdigit8 (c : Char) : Bool := decide (48 ≤ c.toNat ∧ c.toNat ≤ 55)

/-- Maximal run of digits accepted by `p`, accumulated in the given base;
also returns the unconsumed suffix (the `endptr` position). -/
def take_digits (p : Char → Bool) (base : Nat) : List Char → Nat → Nat × List Char
  | [], acc => (acc, [])
  | c :: t, acc =>
    if p c then take_digits p base t (acc * base + digit_val c)
    else (acc, c :: t)

/-- `strtol(s, &end, 0)`: optional whitespace, optional sign, then a
hex constant after a `0x`/`0X` prefix, an octal constant after a leading
`0`, or a decimal constant.  Returns the value and the unconsumed suffix
(`endptr`); if no digits of the detected base are found, nothing is
consumed and the suffix is the whole input, as in C.  A `0x` prefix not
followed by a hex digit consumes just the `0`.  Overflow clamping to
`LONG_MAX` and the `long` to `int` narrowing done by the callers are not
modelled; the configuration values involved are small. -/
def strtol0 (s : List Char) : Int × List Char :=
  let s1 := s.dropWhile isspaceC
  let neg : Bool := s1.headD ' ' == '-'
  let s2 := if s1.headD ' ' == '-' || s1.headD ' ' == '+' then s1.tail else s1
  let sgn : Int := if neg then -1 else 1
  if s2.headD ' ' == '0' then
    let t := s2.tail
    if t.headD ' ' == 'x' || t.headD ' ' == 'X' then
      if isxdigitC (t.tail.headD ' ') then
        let r := take_digits isxdigitC 16 t.tail 0
        (sgn * (r.1 : Int), r.2)
      else (0, t)
    else
      let r := take_digits isdigit8 8 s2 0
      (sgn * (r.1 : Int), r.2)
  else if isdigit10 (s2.headD ' ') then
    let r := take_digits isdigit10 10 s2 0
    (sgn * (r.1 : Int), r.2)
  else (0, s)

/-- `is_valid_integer_string`: accepts a string (possibly NULL, modelled
by `none`) exactly when it is nonempty and `strtol` with base 0 consumes
it entirely; returns the converted value in that case. -/
def is_valid_integer_string (string : Option (List Char)) : Option Int :=
  match string with
  | none => none
  | some s =>
    let r := strtol0 s
    if s ≠ [] ∧ r.2 = [] then some r.1 else none

/-- `INT_MAX` of the target platform. -/
def INT_MAX : Int := 2147483647

/-- `is_valid_size`: `value >= 0 && value <= (max < 0 ? INT_MAX : max)`. -/
def is_valid_size (value : Int) (max : Int) : Bool :=
  decide (0 ≤ value ∧ value ≤ (if max < 0 then INT_MAX else max))

/-- `is_valid_size_string`: integer conversion followed by the size
check; returns the converted value on acceptance. -/
def is_valid_size_string (string : Option (List Char)) (max : Int) : Option Int :=
  match is_valid_integer_string string with
  | some v => if is_valid_size v max then some v else none
  | none => none

/-- The loop of `normalize_string` after the initial `strspn` skip,
written with an explicit pending-whitespace flag instead of the C code's
inner skip loop: a whitespace run emits nothing immediately; the next
non-whitespace character (if any) is preceded by a single space; a run
that reaches the terminator emits nothing. -/
def normalize_loop : Bool → List Char → List Char
  | _, [] => []
  | pending, c :: t =>
    if isspaceC c then normalize_loop true t
    else if pending then ' ' :: c :: normalize_loop false t
    else c :: normalize_loop false t

/-- `normalize_string`: trims leading/trailing whitespace and collapses
internal whitespace runs to single spaces (the C function also copies
into a fresh buffer, which has no observable counterpart here). -/
def normalize_string (input : List Char) : List Char :=
  normalize_loop false (input.dropWhile isspaceC)

/-- Type of constants allowed in the configuration file. -/
inductive ConstantType where
  | CT_INVALID
  | CT_INTEGER
  | CT_GUID
  deriving DecidableEq

/-- A constant parsed from the `constants` section.  The C struct holds
the integer and the GUID value in a union discriminated by `type`; both
fields are present here and only the one selected by `type` is
meaningful. -/
structure Constant where
  type : ConstantType
  name : List Char
  intValue : Int
  guidValue : List Nat
  deriving DecidableEq

/-- `lookup_constant`: first list entry with the given name whose type
matches the filter (`CT_INVALID` disables the type filter).  The list is
the `ParseContext.constants` field, the only part of the context the C
function consults. -/
def lookup_constant (find_name : List Char) (find_type : ConstantType)
    (constants : List Constant) : Option Constant :=
  constants.find? fun elem =>
    decide (elem.name = find_name) &&
      (if find_type = ConstantType.CT_INVALID then true
       else decide (elem.type = find_type))

/-- `lookup_or_convert_to_integer`: literal conversion first; on failure
a symbol lookup filtered to integer constants.  `none` models the
`C_PARSE_ERROR` return (NULL text, or both conversion and lookup
failing). -/
def lookup_or_convert_to_integer (text : Option (List Char))
    (constants : List Constant) : Option Int :=
  match text with
  | none => none
  | some s =>
    match is_valid_integer_string (some s) with
    | some v => some v
    | none =>
      match lookup_constant s ConstantType.CT_INTEGER constants with
      | some c => some c.intValue
      | none => none

/-- `lookup_or_convert_to_guid`: like the integer variant but for GUID
literals and GUID-typed constants. -/
def lookup_or_convert_to_guid (text : Option (List Char))
    (constants : List Constant) : Option (List Nat) :=
  match text with
  | none => none
  | some s =>
    if is_valid_guid s then some (guid_to_byte_array s)
    else
      match lookup_constant s ConstantType.CT_GUID constants with
      | some c => some c.guidValue
      | none => none

/-- Modelled from the spec: the numeric values of the `UVC_CTRL_FLAG_*`
request-flag constants come from the UVC driver header (`compat.h`),
which is not part of the engine's sources; the spec only requires a
bitmask of six distinct request flags plus `AUTO_UPDATE`.  They are
modelled as the driver's historical bit positions. -/
def UVC_CTRL_FLAG_SET_CUR : Nat := 1

/-- Modelled from the spec: see `UVC_CTRL_FLAG_SET_CUR`. -/
def UVC_CTRL_FLAG_GET_CUR : Nat := 2

/-- Modelled from the spec: see `UVC_CTRL_FLAG_SET_CUR`. -/
def UVC_CTRL_FLAG_GET_MIN : Nat := 4

/-- Modelled from the spec: see `UVC_CTRL_FLAG_SET_CUR`. -/
def UVC_CTRL_FLAG_GET_MAX : Nat := 8

/-- Modelled from the spec: see `UVC_CTRL_FLAG_SET_CUR`. -/
def UVC_CTRL_FLAG_GET_RES : Nat := 16

/-- Modelled from the spec: see `UVC_CTRL_FLAG_SET_CUR`. -/
def UVC_CTRL_FLAG_GET_DEF : Nat := 32

/-- Modelled from the spec: see `UVC_CTRL_FLAG_SET_CUR`. -/
def UVC_CTRL_FLAG_AUTO_UPDATE : Nat := 128

/-- `get_uvc_request_by_name`: maps the six recognized request tokens to
their flags; `0` denotes an invalid/unsupported request (also for NULL
text). -/
def get_uvc_request_by_name (name : Option (List Char)) : Nat :=
  match name with
  | none => 0
  | some n =>
    if n = "SET_CUR".toList then UVC_CTRL_FLAG_SET_CUR
    else if n = "GET_CUR".toList then UVC_CTRL_FLAG_GET_CUR
    else if n = "GET_MIN".toList then UVC_CTRL_FLAG_GET_MIN
    else if n = "GET_MAX".toList then UVC_CTRL_FLAG_GET_MAX
    else if n = "GET_RES".toList then UVC_CTRL_FLAG_GET_RES
    else if n = "GET_DEF".toList then UVC_CTRL_FLAG_GET_DEF
    else 0

/-- UVC control data types recognized by `get_uvc_ctrl_type_by_name`. -/
inductive UvcCtrlDataType where
  | raw
  | signed
  | unsigned
  | boolean
  | enumType
  | bitmask
  deriving DecidableEq

/-- `get_uvc_ctrl_type_by_name`; `none` models the `-1` sentinel for an
invalid/unsupported type name. -/
def get_uvc_ctrl_type_by_name (name : Option (List Char)) : Option UvcCtrlDataType :=
  match name with
  | none => none
  | some n =>
    if n = "UVC_CTRL_DATA_TYPE_RAW".toList then some UvcCtrlDataType.raw
    else if n = "UVC_CTRL_DATA_TYPE_SIGNED".toList then some UvcCtrlDataType.signed
    else if n = "UVC_CTRL_DATA_TYPE_UNSIGNED".toList then some UvcCtrlDataType.unsigned
    else if n = "UVC_CTRL_DATA_TYPE_BOOLEAN".toList then some UvcCtrlDataType.boolean
    else if n = "UVC_CTRL_DATA_TYPE_ENUM".toList then some UvcCtrlDataType.enumType
    else if n = "UVC_CTRL_DATA_TYPE_BITMASK".toList then some UvcCtrlDataType.bitmask
    else none

/-- V4L2 control types recognized by `get_v4l2_ctrl_type_by_name`
(the `V4L2_CTRL_TYPE_STRING` branch is compiled only with
`ENABLE_RAW_CONTROLS`, which is modelled as disabled). -/
inductive V4l2CtrlType where
  | integer
  | boolean
  deriving DecidableEq

/-- `get_v4l2_ctrl_type_by_name`; `none` models the `0` sentinel for an
invalid/unsupported type name. -/
def get_v4l2_ctrl_type_by_name (name : Option (List Char)) : Option V4l2CtrlType :=
  match name with
  | none => none
  | some n =>
    if n = "V4L2_CTRL_TYPE_INTEGER".toList then some V4l2CtrlType.integer
    else if n = "V4L2_CTRL_TYPE_BOOLEAN".toList then some V4l2CtrlType.boolean
    else none

/-- Severities of `CDynctrlMessage` diagnostics. -/
inductive CDynctrlMessageSeverity where
  | info
  | warning
  | error
  deriving DecidableEq

/-- The message texts produced by the engine, one constructor per
`add_message`/`add_error`/`add_info` call site (the printf formatting and
the line/column extracted from the document tree carry no information
relevant to the properties verified here and are not reproduced). -/
inductive MsgText where
  | controlNoId
  | controlInvalidEntity (t : Option (List Char))
  | controlInvalidSelector (t : Option (List Char))
  | controlInvalidIndex (t : Option (List Char))
  | controlInvalidSize (t : Option (List Char))
  | controlNoRequests
  | controlInvalidRequest (t : Option (List Char))
  | controlIoctlFailed
  | mappingNoUvc
  | mappingNoControlRef
  | mappingNoIdref
  | mappingUnknownControlRef (id : List Char)
  | mappingNoName
  | mappingInvalidV4l2Id (t : Option (List Char))
  | mappingInvalidV4l2Type (t : Option (List Char))
  | mappingInvalidSize (t : Option (List Char))
  | mappingInvalidOffset (t : Option (List Char))
  | mappingInvalidUvcType (t : Option (List Char))
  | mappingIoctlFailed
  | constantNoName
  | constantDuplicate (name : List Char)
  | constantInvalidInteger (name : List Char) (t : Option (List Char))
  | constantUnknownType (t : Option (List Char))
  | deviceNotUVC
  | deviceCannotOpen
  | deviceNotSupported
  | deviceNoPerms
  | deviceOtherFailure (r : CResult)
  deriving DecidableEq

/-- One entry of the diagnostic log. -/
structure CDynctrlMessage where
  severity : CDynctrlMessageSeverity
  text : MsgText
  deriving DecidableEq

/-- Per-category processing statistics (`successful`/`failed`). -/
structure CDynctrlStatEntry where
  successful : Nat
  failed : Nat
  deriving DecidableEq

/-- A UVC extension unit control definition held in the parse context's
control list (`struct uvc_xu_control_info` plus the document id). -/
structure UVCXUControl where
  id : List Char
  entity : List Nat
  selector : Nat
  index : Nat
  size : Nat
  flags : Nat
  deriving DecidableEq

/-- The parse context (`ParseContext` in C) together with the parts of
the caller-supplied `CDynctrlInfo` structure that the engine mutates.
`hasInfo` models `ctx->info != NULL`; `reportErrors` models the
`CD_REPORT_ERRORS` flag that gates message collection. -/
structure ParseContext where
  hasInfo : Bool
  reportErrors : Bool
  constants : List Constant
  controls : List UVCXUControl
  messages : List CDynctrlMessage
  pass : Int
  statsConstants : CDynctrlStatEntry
  statsControls : CDynctrlStatEntry
  statsMappings : CDynctrlStatEntry
  deriving DecidableEq

/-- The zeroed parse context allocated by
`c_add_control_mappings_from_file`, for a caller that passed an info
structure with error reporting enabled. -/
def dynctrl_init_ctx : ParseContext :=
  ⟨true, true, [], [], [], 0, ⟨0, 0⟩, ⟨0, 0⟩, ⟨0, 0⟩⟩

/-- `add_message_v`: appends to the diagnostic log, a no-op when there is
no info structure or the caller did not opt into error reporting (the
out-of-memory paths of the C buffer management are not modelled). -/
def add_message (ctx : ParseContext) (severity : CDynctrlMessageSeverity)
    (text : MsgText) : ParseContext :=
  if ctx.hasInfo && ctx.reportErrors then
    { ctx with messages := ctx.messages ++ [⟨severity, text⟩] }
  else ctx

/-- `add_error` / `add_error_at_node`: an error-severity message. -/
def add_error (ctx : ParseContext) (text : MsgText) : ParseContext :=
  add_message ctx CDynctrlMessageSeverity.error text

/-- `add_info`: an info-severity message. -/
def add_info (ctx : ParseContext) (text : MsgText) : ParseContext :=
  add_message ctx CDynctrlMessageSeverity.info text

/-- `lookup_control`: first control in the context's list with the given
document id. -/
def lookup_control (name : List Char) (controls : List UVCXUControl) :
    Option UVCXUControl :=
  controls.find? fun elem => decide (elem.id = name)

/-- The errno values the engine distinguishes after a failed ioctl. -/
inductive Errno where
  | EPERM
  | EEXIST
  | EINVAL
  | other
  deriving DecidableEq

/-- Outcome of one transport (ioctl) call: success, or failure with the
reported errno. -/
inductive IoctlResult where
  | ok
  | err (e : Errno)
  deriving DecidableEq

/-- The transport outcomes the kernel driver hands back during one
document-processing pass over one device: one outcome for the
`UVCIOC_CTRL_ADD` calls and one for the `UVCIOC_CTRL_MAP` calls of that
pass (the claims verified here never need two declarations of the same
pass to receive different outcomes). -/
structure Transport where
  ctrl : IoctlResult
  map : IoctlResult
  deriving DecidableEq

/-- The failure test applied to an ioctl return value:
`v4l2_ret != 0 && (ctx->pass == 1 || errno != EEXIST)` when the build
defines `DYNCTRL_IGNORE_EEXIST_AFTER_PASS1` (parameter
`ignoreEexistAfterPass1`), plain `v4l2_ret != 0` otherwise. -/
def ioctl_fails (r : IoctlResult) (ignoreEexistAfterPass1 : Bool) (pass : Int) : Bool :=
  match r with
  | IoctlResult.ok => false
  | IoctlResult.err e =>
    if ignoreEexistAfterPass1 then decide (pass = 1) || decide (e ≠ Errno.EEXIST)
    else true

/-- The `successful`/`failed` bookkeeping shared by `process_constants`,
`process_controls` and `process_mappings`: each tests `if (ret)`, i.e.
"the returned `CResult` is nonzero", and increments `successful` in that
branch and `failed` otherwise — so a nonzero (error) result bumps the
`successful` counter and a `C_SUCCESS` result bumps `failed`. -/
def stats_tally (s : CDynctrlStatEntry) (ret : CResult) : CDynctrlStatEntry :=
  if ret ≠ C_SUCCESS then { s with successful := s.successful + 1 }
  else { s with failed := s.failed + 1 }

/-- A `control` node of the document: the `id` attribute, the texts of
the `entity`, `selector`, `index` and `size` children, and the texts of
the `request` children of the `requests` node (`none` for the whole list
when the `requests` node is missing; `none` for an element whose text is
missing). -/
structure ControlNode where
  id : Option (List Char)
  entity : Option (List Char)
  selector : Option (List Char)
  index : Option (List Char)
  size : Option (List Char)
  requests : Option (List (Option (List Char)))

/-- The request-list loop of `process_control`: accumulates the flag bits
of recognized request tokens and appends one error diagnostic per
unrecognized token (`get_uvc_request_by_name` returned 0); the control's
result code is unaffected. -/
def request_fold (reqs : List (Option (List Char))) (st : Nat × ParseContext) :
    Nat × ParseContext :=
  reqs.foldl
    (fun st t =>
      let flag := get_uvc_request_by_name t
      (st.1 ||| flag,
       if flag = 0 then add_error st.2 (MsgText.controlInvalidRequest t) else st.2))
    st

/-- `process_control`: parses one `control` node, applies it to the
device via `UVCIOC_CTRL_ADD` (outcome `tr.ctrl`), and appends the control
to the context's control list whether or not the ioctl succeeded — only a
structural parsing failure skips the registration.  Memory-allocation
failure paths are not modelled. -/
def process_control (node : ControlNode) (tr : Transport)
    (ign : Bool) (ctx : ParseContext) : CResult × ParseContext :=
  match node.id with
  | none => (C_PARSE_ERROR, add_error ctx MsgText.controlNoId)
  | some cid =>
    match lookup_or_convert_to_guid node.entity ctx.constants with
    | none => (C_PARSE_ERROR, add_error ctx (MsgText.controlInvalidEntity node.entity))
    | some entity =>
      match lookup_or_convert_to_integer node.selector ctx.constants with
      | none => (C_PARSE_ERROR, add_error ctx (MsgText.controlInvalidSelector node.selector))
      | some selv =>
        match lookup_or_convert_to_integer node.index ctx.constants with
        | none => (C_PARSE_ERROR, add_error ctx (MsgText.controlInvalidIndex node.index))
        | some idxv =>
          match lookup_or_convert_to_integer node.size ctx.constants with
          | none => (C_PARSE_ERROR, add_error ctx (MsgText.controlInvalidSize node.size))
          | some sizev =>
            if ¬ is_valid_size sizev 65535 then
              (C_PARSE_ERROR, add_error ctx (MsgText.controlInvalidSize node.size))
            else
              match node.requests with
              | none => (C_PARSE_ERROR, add_error ctx MsgText.controlNoRequests)
              | some reqs =>
                let fr := request_fold reqs (0, ctx)
                let xu : UVCXUControl :=
                  ⟨cid, entity, toU8 selv, toU8 idxv, toU16 sizev,
                   fr.1 ||| UVC_CTRL_FLAG_AUTO_UPDATE⟩
                let rc :=
                  if ioctl_fails tr.ctrl ign ctx.pass then
                    (C_V4L2_ERROR, add_error fr.2 MsgText.controlIoctlFailed)
                  else (C_SUCCESS, fr.2)
                (rc.1, { rc.2 with controls := xu :: rc.2.controls })

/-- `process_controls`: processes every `control` node, tallying the
per-control results into the control statistics when an info structure is
present; always returns `C_SUCCESS`. -/
def process_controls (nodes : List ControlNode) (tr : Transport)
    (ign : Bool) (ctx : ParseContext) : CResult × ParseContext :=
  (C_SUCCESS,
   nodes.foldl
     (fun c node =>
       let r := process_control node tr ign c
       if r.2.hasInfo then
         { r.2 with statsControls := stats_tally r.2.statsControls r.1 }
       else r.2)
     ctx)

/-- A `device` node: its optional `controls` child (the `match` sections
are ignored by the engine). -/
structure DeviceNode where
  controls : Option (List ControlNode)

/-- `process_device`: processes the `controls` child if present; always
returns `C_SUCCESS`. -/
def process_device (dev : DeviceNode) (tr : Transport)
    (ign : Bool) (ctx : ParseContext) : CResult × ParseContext :=
  match dev.controls with
  | some nodes => (C_SUCCESS, (process_controls nodes tr ign ctx).2)
  | none => (C_SUCCESS, ctx)

/-- `process_devices`: processes every `device` node of one `devices`
list; always returns `C_SUCCESS`. -/
def process_devices (devs : List DeviceNode) (tr : Transport)
    (ign : Bool) (ctx : ParseContext) : CResult × ParseContext :=
  (C_SUCCESS, devs.foldl (fun c d => (process_device d tr ign c).2) ctx)

/-- A `mapping` node: presence of its `v4l2` and `uvc` children and of
the `uvc/control_ref` child, the `idref` attribute, and the texts of the
remaining fields. -/
structure MappingNode where
  hasV4l2 : Bool
  hasUvc : Bool
  hasControlRef : Bool
  idref : Option (List Char)
  name : Option (List Char)
  v4l2Id : Option (List Char)
  v4l2Type : Option (List Char)
  uvcSize : Option (List Char)
  uvcOffset : Option (List Char)
  uvcType : Option (List Char)

/-- `process_mapping`: resolves one `mapping` node in the order of the C
code — `v4l2` node (missing: `C_NOT_IMPLEMENTED` with no diagnostic),
`uvc` node, `control_ref` node and `idref` attribute, registry lookup,
normalized name (truncation to the fixed `uvc_xu_control_mapping.name`
width does not affect the result code), V4L2 id (integer or symbol), V4L2
type, UVC size and offset (literal integers only, bounded to 0..255), UVC
data type — and finally applies it via `UVCIOC_CTRL_MAP` (outcome
`tr.map`).  The assembled mapping record is not retained. -/
def process_mapping (node : MappingNode) (tr : Transport)
    (ign : Bool) (ctx : ParseContext) : CResult × ParseContext :=
  if ¬ node.hasV4l2 then (C_NOT_IMPLEMENTED, ctx)
  else if ¬ node.hasUvc then (C_PARSE_ERROR, add_error ctx MsgText.mappingNoUvc)
  else if ¬ node.hasControlRef then
    (C_PARSE_ERROR, add_error ctx MsgText.mappingNoControlRef)
  else
    match node.idref with
    | none => (C_PARSE_ERROR, add_error ctx MsgText.mappingNoIdref)
    | some refid =>
      match lookup_control refid ctx.controls with
      | none => (C_PARSE_ERROR, add_error ctx (MsgText.mappingUnknownControlRef refid))
      | some _control =>
        match node.name.map normalize_string with
        | none => (C_PARSE_ERROR, add_error ctx MsgText.mappingNoName)
        | some _name =>
          match lookup_or_convert_to_integer node.v4l2Id ctx.constants with
          | none => (C_PARSE_ERROR, add_error ctx (MsgText.mappingInvalidV4l2Id node.v4l2Id))
          | some _idv =>
            match get_v4l2_ctrl_type_by_name node.v4l2Type with
            | none => (C_PARSE_ERROR, add_error ctx (MsgText.mappingInvalidV4l2Type node.v4l2Type))
            | some _vt =>
              match is_valid_size_string node.uvcSize 255 with
              | none => (C_PARSE_ERROR, add_error ctx (MsgText.mappingInvalidSize node.uvcSize))
              | some _szv =>
                match is_valid_size_string node.uvcOffset 255 with
                | none => (C_PARSE_ERROR, add_error ctx (MsgText.mappingInvalidOffset node.uvcOffset))
                | some _offv =>
                  match get_uvc_ctrl_type_by_name node.uvcType with
                  | none => (C_PARSE_ERROR, add_error ctx (MsgText.mappingInvalidUvcType node.uvcType))
                  | some _dt =>
                    if ioctl_fails tr.map ign ctx.pass then
                      (C_V4L2_ERROR, add_error ctx MsgText.mappingIoctlFailed)
                    else (C_SUCCESS, ctx)

/-- `process_mappings`: processes every `mapping` node, tallying the
per-mapping results into the mapping statistics when an info structure is
present; always returns `C_SUCCESS`. -/
def process_mappings (nodes : List MappingNode) (tr : Transport)
    (ign : Bool) (ctx : ParseContext) : CResult × ParseContext :=
  (C_SUCCESS,
   nodes.foldl
     (fun c node =>
       let r := process_mapping node tr ign c
       if r.2.hasInfo then
         { r.2 with statsMappings := stats_tally r.2.statsMappings r.1 }
       else r.2)
     ctx)

/-- A `constant` node: the text of its `id` child, the `type` attribute,
and the text of its `value` child. -/
structure ConstantNode where
  id : Option (List Char)
  typeAttr : Option (List Char)
  value : Option (List Char)

/-- `process_constant`: parses one `constant` node and prepends it to the
context's constant list.  A missing name, a name already defined (any
kind), an invalid integer value, or an unknown type attribute rejects the
node with an error diagnostic.  In the GUID branch the value text is
passed to `guid_to_byte_array` with no validation at all; a missing
`value` node would make the C code dereference NULL (undefined), which is
approximated here by decoding the empty string. -/
def process_constant (node : ConstantNode) (ctx : ParseContext) :
    CResult × ParseContext :=
  match node.id with
  | none => (C_PARSE_ERROR, add_error ctx MsgText.constantNoName)
  | some name =>
    if (lookup_constant name ConstantType.CT_INVALID ctx.constants).isSome then
      (C_PARSE_ERROR, add_error ctx (MsgText.constantDuplicate name))
    else
      let ctype :=
        if node.typeAttr = some ("integer".toList) then ConstantType.CT_INTEGER
        else if node.typeAttr = some ("guid".toList) then ConstantType.CT_GUID
        else ConstantType.CT_INVALID
      match ctype with
      | ConstantType.CT_INTEGER =>
        match is_valid_integer_string node.value with
        | some v =>
          (C_SUCCESS,
           { ctx with constants :=
               ⟨ConstantType.CT_INTEGER, name, v, List.replicate 16 0⟩ :: ctx.constants })
        | none =>
          (C_PARSE_ERROR, add_error ctx (MsgText.constantInvalidInteger name node.value))
      | ConstantType.CT_GUID =>
        (C_SUCCESS,
         { ctx with constants :=
             ⟨ConstantType.CT_GUID, name, 0,
              guid_to_byte_array (node.value.getD [])⟩ :: ctx.constants })
      | ConstantType.CT_INVALID =>
        (C_PARSE_ERROR, add_error ctx (MsgText.constantUnknownType node.typeAttr))

/-- `process_constants`: processes every `constant` node, tallying the
per-constant results into the constant statistics when an info structure
is present; always returns `C_SUCCESS`. -/
def process_constants (nodes : List ConstantNode) (ctx : ParseContext) :
    CResult × ParseContext :=
  (C_SUCCESS,
   nodes.foldl
     (fun c node =>
       let r := process_constant node c
       if r.2.hasInfo then
         { r.2 with statsConstants := stats_tally r.2.statsConstants r.1 }
       else r.2)
     ctx)

/-- The already-parsed document tree handed to `process_dynctrl_doc`: the
`constants` list, the `devices` lists (each a list of `device` nodes),
and the `mappings` list.  `meta` extraction only copies data into the
caller's info structure and is not modelled. -/
structure DynctrlDoc where
  constants : List ConstantNode
  devicesSections : List (List DeviceNode)
  mappings : List MappingNode

/-- `process_dynctrl_doc`: increments the pass counter, processes `meta`
and `constants` only when the resulting pass equals 1, then every
`devices` list, then `mappings`.  `process_meta` and `process_constants`
always return `C_SUCCESS`, so the early-return checks after them in the C
code never fire and are not reproduced; the overall result is the result
of `process_mappings`. -/
def process_dynctrl_doc (doc : DynctrlDoc) (tr : Transport)
    (ign : Bool) (ctx0 : ParseContext) : CResult × ParseContext :=
  let ctx1 := { ctx0 with pass := ctx0.pass + 1 }
  let ctx2 := if ctx1.pass = 1 then (process_constants doc.constants ctx1).2 else ctx1
  let ctx3 :=
    doc.devicesSections.foldl (fun c devs => (process_devices devs tr ign c).2) ctx2
  process_mappings doc.mappings tr ign ctx3

/-- Iterated document processing: one `process_dynctrl_doc` call per
element of `trs`, each with that pass's transport outcomes — the shape of
the per-device loop's repeated processing of one document. -/
def runPasses (doc : DynctrlDoc) (trs : List Transport) (ign : Bool)
    (ctx : ParseContext) : ParseContext :=
  trs.foldl (fun c tr => (process_dynctrl_doc doc tr ign c).2) ctx

/-- `device_supports_dynctrl`: probes the driver by re-declaring the
built-in brightness control.  Only the `EEXIST` failure confirms support
(`C_SUCCESS`); `EPERM` maps to `C_CANNOT_WRITE`; every other failure —
and also an outright success of the probe ioctl — classifies the device
as not supporting dynamic controls (`C_NOT_IMPLEMENTED`). -/
def device_supports_dynctrl (probe : IoctlResult) : CResult :=
  match probe with
  | IoctlResult.ok => C_NOT_IMPLEMENTED
  | IoctlResult.err e =>
    if e = Errno.EPERM then C_CANNOT_WRITE
    else if e = Errno.EEXIST then C_SUCCESS
    else C_NOT_IMPLEMENTED

/-- `add_control_mappings`: opens the V4L2 device (`v4l2OpenOk`; failure
yields `C_INVALID_DEVICE`), probes for dynamic-control support, and only
on a confirmed probe processes the document against the device. -/
def add_control_mappings (doc : DynctrlDoc) (tr : Transport)
    (v4l2OpenOk : Bool) (probe : IoctlResult) (ign : Bool)
    (ctx : ParseContext) : CResult × ParseContext :=
  if ¬ v4l2OpenOk then (C_INVALID_DEVICE, ctx)
  else
    match device_supports_dynctrl probe with
    | C_SUCCESS => process_dynctrl_doc doc tr ign ctx
    | r => (r, ctx)

/-- One candidate device of the session's per-device loop: its driver
name, whether `c_open_device` succeeds, whether `open_v4l2_device`
succeeds, the probe ioctl's outcome, and the transport outcomes for the
document-processing pass run against it. -/
structure CDevice where
  driver : List Char
  openOk : Bool
  v4l2OpenOk : Bool
  probe : IoctlResult
  tr : Transport

/-- One iteration of the device loop in
`c_add_control_mappings_from_file`, acting on the running state
`(ret, successful_devices, ctx)`: non-UVC devices and devices that fail
to open are skipped with a diagnostic and leave `ret` and the success
count unchanged; otherwise `ret` becomes this device's
`add_control_mappings` result, the success count is incremented exactly
on `C_SUCCESS`, and a failure appends the outcome-specific diagnostic. -/
def device_step (doc : DynctrlDoc) (ign : Bool)
    (st : CResult × Nat × ParseContext) (d : CDevice) :
    CResult × Nat × ParseContext :=
  if d.driver ≠ "uvcvideo".toList then (st.1, st.2.1, add_info st.2.2 MsgText.deviceNotUVC)
  else if ¬ d.openOk then (st.1, st.2.1, add_error st.2.2 MsgText.deviceCannotOpen)
  else
    let r := add_control_mappings doc d.tr d.v4l2OpenOk d.probe ign st.2.2
    let succ := if r.1 = C_SUCCESS then st.2.1 + 1 else st.2.1
    let ctx2 :=
      match r.1 with
      | C_SUCCESS => r.2
      | C_NOT_IMPLEMENTED => add_error r.2 MsgText.deviceNotSupported
      | C_CANNOT_WRITE => add_error r.2 MsgText.deviceNoPerms
      | e => add_error r.2 (MsgText.deviceOtherFailure e)
    (r.1, succ, ctx2)

/-- The number of successfully applied-to devices accumulated by the
loop. -/
def successful_devices (doc : DynctrlDoc) (ign : Bool)
    (devs : List CDevice) (ctx : ParseContext) : Nat :=
  (devs.foldl (device_step doc ign) (C_SUCCESS, 0, ctx)).2.1

/-- The device loop of `c_add_control_mappings_from_file` from the point
where the document has been parsed (`ret` is then `C_SUCCESS`) to the
function's return: folds `device_step` over the candidate devices and
replaces the final `ret` by `C_INVALID_DEVICE` exactly when no device was
successfully applied to. -/
def c_add_control_mappings_loop (doc : DynctrlDoc) (ign : Bool)
    (devs : List CDevice) (ctx : ParseContext) : CResult × ParseContext :=
  let st := devs.foldl (device_step doc ign) (C_SUCCESS, 0, ctx)
  (if st.2.1 = 0 then C_INVALID_DEVICE else st.1, st.2.2)

/-- A canonical 36-character GUID literal used by the concrete test
documents. -/
def guid_text_1 : List Char := "01020304-0506-0708-090a-0b0c0d0e0f10".toList

/-- The 16-byte stored form of `guid_text_1` (first three groups
byte-reversed). -/
def xu1_entity : List Nat := [4, 3, 2, 1, 6, 5, 8, 7, 9, 10, 11, 12, 13, 14, 15, 16]

/-- A structurally valid `control` declaration: literal entity GUID,
literal selector/index/size, two recognized request tokens. -/
def xu_node_1 : ControlNode :=
  ⟨some ("xu1".toList), some guid_text_1, some ("1".toList), some ("0".toList),
   some ("2".toList), some [some ("GET_CUR".toList), some ("SET_CUR".toList)]⟩

/-- The registry entry `process_control` builds from `xu_node_1`
(flags: GET_CUR 2, SET_CUR 1, AUTO_UPDATE 128). -/
def xu1 : UVCXUControl := ⟨"xu1".toList, xu1_entity, 1, 0, 2, 131⟩

/-- A structurally valid `mapping` declaration referencing `xu_node_1`. -/
def map_node_1 : MappingNode :=
  ⟨true, true, true, some ("xu1".toList), some ("Test".toList), some ("1".toList),
   some ("V4L2_CTRL_TYPE_INTEGER".toList), some ("2".toList), some ("0".toList),
   some ("UVC_CTRL_DATA_TYPE_UNSIGNED".toList)⟩

/-- A transport whose calls all succeed. -/
def tr_ok : Transport := ⟨IoctlResult.ok, IoctlResult.ok⟩

/-- A document with one valid integer constant, one valid control and one
valid mapping. -/
def c1_doc : DynctrlDoc :=
  ⟨[⟨some ("BRI".toList), some ("integer".toList), some ("1".toList)⟩],
   [[⟨some [xu_node_1]⟩]], [map_node_1]⟩

/-- A document with a single control declaration and nothing else. -/
def one_control_doc : DynctrlDoc := ⟨[], [[⟨some [xu_node_1]⟩]], []⟩

/-- A document with no constants, devices or mappings. -/
def empty_doc : DynctrlDoc := ⟨[], [], []⟩

/-- A UVC device that opens fine and whose driver confirms support
(probe fails with `EEXIST`). -/
def dev_good : CDevice := ⟨"uvcvideo".toList, true, true, IoctlResult.err Errno.EEXIST, tr_ok⟩

/-- A UVC device whose probe ioctl succeeds outright — which the engine
treats as "no dynamic-control support". -/
def dev_probe_ok : CDevice := ⟨"uvcvideo".toList, true, true, IoctlResult.ok, tr_ok⟩

/-- A device behind a different driver; the loop skips it. -/
def dev_other_driver : CDevice :=
  ⟨"gspca".toList, true, true, IoctlResult.err Errno.EEXIST, tr_ok⟩

/-- The two duplicate declarations of the name `X` (values 1 and 2). -/
def c5_nodes : List ConstantNode :=
  [⟨some ("X".toList), some ("integer".toList), some ("1".toList)⟩,
   ⟨some ("X".toList), some ("integer".toList), some ("2".toList)⟩]

/-- A 38-character text whose first 36 characters have the canonical
hyphenated GUID shape. -/
def c7_long_text : List Char := "01020304-0506-0708-090a-0b0c0d0e0f10ff".toList

/-- A control declaration whose only request token is unrecognized. -/
def c4_node : ControlNode :=
  ⟨some ("xu2".toList), some guid_text_1, some ("1".toList), some ("0".toList),
   some ("2".toList), some [some ("GET_FOO".toList)]⟩

/-- Flag accumulation over a request-token list: the bitwise or of the
flags of the recognized tokens. -/
def request_flags : List (Option (List Char)) → Nat
  | [] => 0
  | t :: ts => get_uvc_request_by_name t ||| request_flags ts

/-- The diagnostics the request loop produces: one error-severity message
per token that `get_uvc_request_by_name` does not recognize, in token
order. -/
def unrecognized_request_msgs (reqs : List (Option (List Char))) : List CDynctrlMessage :=
  (reqs.filter fun t => get_uvc_request_by_name t == 0).map
    fun t => ⟨CDynctrlMessageSeverity.error, MsgText.controlInvalidRequest t⟩

/-!
Theorems.  Each claim of the specification review is settled by exactly
one theorem below; shared helper lemmas precede them.
-/

/-- C1: for every constant, control and mapping declaration, a successful
declaration is claimed to increment the `successful` counter of its
category and a failure the `failed` counter, with one valid constant
yielding `stats.constants = {1, 0}`.  The code tests `if (ret)` — true
exactly on a nonzero, i.e. failing, result — so the counters are
incremented the other way around: one pass over a document with one valid
constant, one valid control and one valid mapping (all transport calls
succeeding) leaves every category at `{successful 0, failed 1}`, and a
second pass (which reprocesses controls and mappings but not constants,
confirming the pass-1 gating of constants) moves controls and mappings to
`{0, 2}` while constants stay at `{0, 1}`. -/
theorem stats_counters_inverted_on_valid_document :
    (process_dynctrl_doc c1_doc tr_ok false dynctrl_init_ctx).2.statsConstants = ⟨0, 1⟩ ∧
    (process_dynctrl_doc c1_doc tr_ok false dynctrl_init_ctx).2.statsControls = ⟨0, 1⟩ ∧
    (process_dynctrl_doc c1_doc tr_ok false dynctrl_init_ctx).2.statsMappings = ⟨0, 1⟩ ∧
    (runPasses c1_doc [tr_ok, tr_ok] false dynctrl_init_ctx).statsConstants = ⟨0, 1⟩ ∧
    (runPasses c1_doc [tr_ok, tr_ok] false dynctrl_init_ctx).statsControls = ⟨0, 2⟩ ∧
    (runPasses c1_doc [tr_ok, tr_ok] false dynctrl_init_ctx).statsMappings = ⟨0, 2⟩ := by
  decide

/-- C5: declaring two constants with the same name: the first succeeds
and is stored, the second is rejected as a duplicate with an error-level
diagnostic and discarded, and the name still resolves to the first value
— but the duplicate is counted in the `successful` column (the inverted
`if (ret)` tally), not as a failed constant as claimed: processing the
first declaration alone leaves the statistics at `{0, 1}` (its success
recorded as `failed`), and processing both leaves `{1, 1}` with the
duplicate recorded as `successful`. -/
theorem duplicate_constant_first_wins_tallied_successful :
    (process_constants c5_nodes dynctrl_init_ctx).2.constants =
      [⟨ConstantType.CT_INTEGER, "X".toList, 1, List.replicate 16 0⟩] ∧
    ((lookup_constant ("X".toList) ConstantType.CT_INVALID
        (process_constants c5_nodes dynctrl_init_ctx).2.constants).map
      fun c => c.intValue) = some 1 ∧
    (process_constants c5_nodes dynctrl_init_ctx).2.messages =
      [⟨CDynctrlMessageSeverity.error, MsgText.constantDuplicate ("X".toList)⟩] ∧
    (process_constants c5_nodes dynctrl_init_ctx).2.statsConstants = ⟨1, 1⟩ ∧
    (process_constants [⟨some ("X".toList), some ("integer".toList), some ("1".toList)⟩]
        dynctrl_init_ctx).2.statsConstants = ⟨0, 1⟩ := by
  decide

/-- C7: a text is claimed to be accepted as a GUID literal exactly when
it is the canonical 36-character hyphenated form.  `is_valid_guid` checks
only character positions 0 through 35 — its length test
`string == NULL && strlen(string) != 36` short-circuits to false for
every non-null string — so the 38-character text `c7_long_text`, whose
first 36 characters have the canonical shape, is accepted and is resolved
as a GUID literal (no symbol lookup: the table is empty here). -/
theorem overlong_text_accepted_as_guid_literal :
    is_valid_guid c7_long_text = true ∧
    c7_long_text.length = 38 ∧
    lookup_or_convert_to_guid (some c7_long_text) [] =
      some (guid_to_byte_array c7_long_text) := by
  decide

/-- C8: for every GUID text, the 16-byte stored form produced by
`guid_to_byte_array` is the first three hyphen-delimited groups with the
byte order reversed within each group, followed by the fourth group and
the trailing 12 hex digits in the byte order in which they appear in the
text. -/
theorem guid_byte_array_group_order (s : List Char) :
    guid_to_byte_array s =
      (guid_text_group1 s).reverse ++ (guid_text_group2 s).reverse ++
      (guid_text_group3 s).reverse ++ guid_text_group4 s ++ guid_text_group5 s := rfl

/-- C9: a probe ioctl that succeeds outright classifies the device as not
supporting dynamic controls (`C_NOT_IMPLEMENTED`), exactly like a generic
rejection (`EINVAL` or any other errno besides `EPERM`/`EEXIST`); only
the `EEXIST` outcome confirms support, and `EPERM` is the distinct
permission condition.  Consequently `add_control_mappings` on a device
whose probe succeeds returns `C_NOT_IMPLEMENTED` without touching the
context, and the device loop records such a device as skipped (success
count unchanged, one "not supported" diagnostic). -/
theorem probe_success_classified_not_supported :
    device_supports_dynctrl IoctlResult.ok = C_NOT_IMPLEMENTED ∧
    device_supports_dynctrl (IoctlResult.err Errno.EINVAL) = C_NOT_IMPLEMENTED ∧
    device_supports_dynctrl (IoctlResult.err Errno.other) = C_NOT_IMPLEMENTED ∧
    device_supports_dynctrl (IoctlResult.err Errno.EEXIST) = C_SUCCESS ∧
    device_supports_dynctrl (IoctlResult.err Errno.EPERM) = C_CANNOT_WRITE ∧
    (∀ (doc : DynctrlDoc) (tr : Transport) (ign : Bool) (ctx : ParseContext),
      add_control_mappings doc tr true IoctlResult.ok ign ctx = (C_NOT_IMPLEMENTED, ctx)) ∧
    (∀ (doc : DynctrlDoc) (ign : Bool) (r : CResult) (n : Nat) (ctx : ParseContext),
      device_step doc ign (r, n, ctx)
          ⟨"uvcvideo".toList, true, true, IoctlResult.ok, tr_ok⟩
        = (C_NOT_IMPLEMENTED, n, add_error ctx MsgText.deviceNotSupported)) :=
  ⟨rfl, rfl, rfl, rfl, rfl, fun _ _ _ _ => rfl, fun _ _ _ _ _ => rfl⟩


/-- Helper: `add_message` touches only the message list. -/
theorem add_message_controls (ctx : ParseContext) (sev : CDynctrlMessageSeverity)
    (t : MsgText) : (add_message ctx sev t).controls = ctx.controls := by
  unfold add_message
  split <;> rfl

/-- Helper: `add_message` preserves `hasInfo`. -/
theorem add_message_hasInfo (ctx : ParseContext) (sev : CDynctrlMessageSeverity)
    (t : MsgText) : (add_message ctx sev t).hasInfo = ctx.hasInfo := by
  unfold add_message
  split <;> rfl

/-- Helper: `add_message` preserves `reportErrors`. -/
theorem add_message_reportErrors (ctx : ParseContext) (sev : CDynctrlMessageSeverity)
    (t : MsgText) : (add_message ctx sev t).reportErrors = ctx.reportErrors := by
  unfold add_message
  split <;> rfl

/-- Helper: with an info structure and error reporting enabled,
`add_message` appends exactly one message and leaves everything else
unchanged. -/
theorem add_message_eq (ctx : ParseContext) (sev : CDynctrlMessageSeverity) (t : MsgText)
    (hinfo : ctx.hasInfo = true) (hrep : ctx.reportErrors = true) :
    add_message ctx sev t = { ctx with messages := ctx.messages ++ [⟨sev, t⟩] } := by
  unfold add_message
  rw [hinfo, hrep]
  rfl

/-- Helper: a valid integer literal resolves with no symbol-table
lookup — the result is the same for every constant table. -/
theorem lookup_or_convert_to_integer_literal (s : List Char) (v : Int)
    (cs : List Constant) (h : is_valid_integer_string (some s) = some v) :
    lookup_or_convert_to_integer (some s) cs = some v := by
  unfold lookup_or_convert_to_integer
  dsimp only
  rw [h]

/-- Helper: a valid GUID literal resolves to its decoded bytes with no
symbol-table lookup. -/
theorem lookup_or_convert_to_guid_literal (s : List Char) (cs : List Constant)
    (h : is_valid_guid s = true) :
    lookup_or_convert_to_guid (some s) cs = some (guid_to_byte_array s) := by
  unfold lookup_or_convert_to_guid
  dsimp only
  rw [h]
  rfl

/-- Helper: the type-filtered constant lookup finds nothing when no
table entry has both the requested name and the requested kind. -/
theorem lookup_constant_filtered_none (s : List Char) (t : ConstantType)
    (cs : List Constant) (ht : t ≠ ConstantType.CT_INVALID)
    (h : ∀ c ∈ cs, ¬(c.name = s ∧ c.type = t)) :
    lookup_constant s t cs = none := by
  unfold lookup_constant
  rw [List.find?_eq_none]
  intro c hc
  rw [if_neg ht]
  simp only [Bool.and_eq_true, decide_eq_true_eq, not_and]
  intro hn htp
  exact h c hc ⟨hn, htp⟩

/-- Helper: the two literal texts `1` and `1`-like values of `xu_node_1`
resolve without consulting the table (this one: text `1`). -/
theorem int_text_1_resolves (cs : List Constant) :
    lookup_or_convert_to_integer (some ("1".toList)) cs = some 1 := rfl

/-- Helper: the literal text `0` resolves to 0 for every table. -/
theorem int_text_0_resolves (cs : List Constant) :
    lookup_or_convert_to_integer (some ("0".toList)) cs = some 0 := rfl

/-- Helper: the literal text `2` resolves to 2 for every table. -/
theorem int_text_2_resolves (cs : List Constant) :
    lookup_or_convert_to_integer (some ("2".toList)) cs = some 2 := rfl

/-- Helper: the GUID literal of `xu_node_1` resolves to its stored bytes
for every table. -/
theorem guid_text_1_resolves (cs : List Constant) :
    lookup_or_convert_to_guid (some guid_text_1) cs = some xu1_entity := by
  have h1 : lookup_or_convert_to_guid (some guid_text_1) cs
      = some (guid_to_byte_array guid_text_1) := rfl
  have h2 : guid_to_byte_array guid_text_1 = xu1_entity := by decide
  rw [h1, h2]

/-- Helper: the request loop of `xu_node_1` recognizes both tokens, so
it accumulates flags 3 and leaves the context untouched. -/
theorem request_fold_xu1 (c : ParseContext) :
    request_fold [some ("GET_CUR".toList), some ("SET_CUR".toList)] (0, c) = (3, c) := by
  simp only [request_fold, List.foldl_cons, List.foldl_nil,
    show get_uvc_request_by_name (some ("GET_CUR".toList)) = 2 from rfl,
    show get_uvc_request_by_name (some ("SET_CUR".toList)) = 1 from rfl,
    show (0 ||| 2 : Nat) = 2 from rfl, show (2 ||| 1 : Nat) = 3 from rfl]
  norm_num

/-- Helper: `process_control` on `xu_node_1` prepends `xu1` to the
control registry for every starting context, transport outcome, pass and
build flavour — the ioctl outcome influences only the result code and the
diagnostics. -/
theorem process_control_xu1_controls (tr : Transport) (ign : Bool) (c : ParseContext) :
    (process_control xu_node_1 tr ign c).2.controls = xu1 :: c.controls := by
  simp only [process_control, xu_node_1, guid_text_1_resolves, int_text_1_resolves,
    int_text_0_resolves, int_text_2_resolves, request_fold_xu1,
    show is_valid_size 2 65535 = true from rfl]
  norm_num [show ((3 : Nat) ||| UVC_CTRL_FLAG_AUTO_UPDATE) = 131 from rfl,
    show toU8 1 = 1 from rfl, show toU8 0 = 0 from rfl, show toU16 2 = 2 from rfl, xu1]
  split <;> simp [add_error, add_message_controls]

/-- Helper: `process_dynctrl_doc` always returns `C_SUCCESS`: its result
is that of `process_mappings`, which is always `C_SUCCESS` (the
per-declaration failures are recorded only in the statistics and the
diagnostic log). -/
theorem process_dynctrl_doc_ret (doc : DynctrlDoc) (tr : Transport) (ign : Bool)
    (ctx : ParseContext) : (process_dynctrl_doc doc tr ign ctx).1 = C_SUCCESS := rfl

/-- Helper: one processing pass over `one_control_doc` prepends exactly
the entry `xu1` to the registry. -/
theorem process_doc_one_control_controls (tr : Transport) (ign : Bool)
    (ctx : ParseContext) :
    (process_dynctrl_doc one_control_doc tr ign ctx).2.controls = xu1 :: ctx.controls := by
  unfold process_dynctrl_doc
  simp only [one_control_doc, process_constants, process_mappings, process_devices,
    process_device, process_controls, List.foldl_nil, List.foldl_cons, ite_self]
  split <;> rw [process_control_xu1_controls]

/-- Helper: iterating the document-processing pass over
`one_control_doc` accumulates one copy of `xu1` per pass. -/
theorem runPasses_one_control (trs : List Transport) (ign : Bool)
    (ctx : ParseContext) :
    (runPasses one_control_doc trs ign ctx).controls =
      List.replicate trs.length xu1 ++ ctx.controls := by
  induction trs generalizing ctx with
  | nil => simp [runPasses]
  | cons tr ts ih =>
    simp only [runPasses, List.foldl_cons] at ih ⊢
    rw [ih, process_doc_one_control_controls, List.length_cons]
    rw [← List.singleton_append, ← List.append_assoc, ← List.replicate_succ']

/-- Helper: devices that are skipped (non-UVC driver, or failing to
open) leave the running result code and the success count of the device
loop unchanged. -/
theorem foldl_skipped_devices (doc : DynctrlDoc) (ign : Bool) (rest : List CDevice)
    (h : ∀ d ∈ rest, d.driver ≠ "uvcvideo".toList ∨ d.openOk = false) :
    ∀ (r : CResult) (n : Nat) (c : ParseContext),
      (rest.foldl (device_step doc ign) (r, n, c)).1 = r ∧
      (rest.foldl (device_step doc ign) (r, n, c)).2.1 = n := by
  induction rest with
  | nil => intro r n c; exact ⟨rfl, rfl⟩
  | cons d ds ih =>
    intro r n c
    have hd := h d (List.mem_cons_self d ds)
    have hds : ∀ d' ∈ ds, d'.driver ≠ "uvcvideo".toList ∨ d'.openOk = false :=
      fun d' hm => h d' (List.mem_cons_of_mem d hm)
    rcases hd with h1 | h1
    · have hstep : device_step doc ign (r, n, c) d = (r, n, add_info c MsgText.deviceNotUVC) := by
        unfold device_step
        rw [if_pos h1]
      rw [List.foldl_cons, hstep]
      exact ih hds r n _
    · by_cases h2 : d.driver = "uvcvideo".toList
      · have hstep : device_step doc ign (r, n, c) d =
            (r, n, add_error c MsgText.deviceCannotOpen) := by
          unfold device_step
          rw [if_neg (not_not_intro h2), if_pos (show ¬ d.openOk = true by simp [h1])]
        rw [List.foldl_cons, hstep]
        exact ih hds r n _
      · have hstep : device_step doc ign (r, n, c) d =
            (r, n, add_info c MsgText.deviceNotUVC) := by
          unfold device_step
          rw [if_pos h2]
        rw [List.foldl_cons, hstep]
        exact ih hds r n _

/-- Helper: a UVC device that opens, probes as supported and is then
applied to yields `C_SUCCESS` (document processing always does) and
increments the success count. -/
theorem device_step_applied_success (doc : DynctrlDoc) (ign : Bool)
    (r : CResult) (n : Nat) (c : ParseContext) (d : CDevice)
    (hdrv : d.driver = "uvcvideo".toList) (hopen : d.openOk = true)
    (hv4l2 : d.v4l2OpenOk = true)
    (hsupp : device_supports_dynctrl d.probe = C_SUCCESS) :
    (device_step doc ign (r, n, c) d).1 = C_SUCCESS ∧
    (device_step doc ign (r, n, c) d).2.1 = n + 1 := by
  simp [device_step, hdrv, hopen, add_control_mappings, hv4l2, hsupp,
    process_dynctrl_doc_ret]

/-- Helper: the request loop accumulates the or of the recognized flags
and appends one error diagnostic per unrecognized token, in order. -/
theorem request_fold_eq (reqs : List (Option (List Char))) :
    ∀ (f0 : Nat) (ctx : ParseContext), ctx.hasInfo = true → ctx.reportErrors = true →
    request_fold reqs (f0, ctx) =
      (f0 ||| request_flags reqs,
       { ctx with messages := ctx.messages ++ unrecognized_request_msgs reqs }) := by
  induction reqs with
  | nil =>
    intro f0 ctx h1 h2
    simp [request_fold, request_flags, unrecognized_request_msgs, Nat.or_zero]
  | cons t ts ih =>
    intro f0 ctx h1 h2
    have hstep : request_fold (t :: ts) (f0, ctx) =
        request_fold ts (f0 ||| get_uvc_request_by_name t,
          if get_uvc_request_by_name t = 0 then
            add_error ctx (MsgText.controlInvalidRequest t) else ctx) := by
      unfold request_fold
      rw [List.foldl_cons]
    rw [hstep]
    by_cases hf : get_uvc_request_by_name t = 0
    · rw [if_pos hf, hf, Nat.or_zero]
      rw [ih f0 (add_error ctx (MsgText.controlInvalidRequest t))
            (by rw [add_error, add_message_hasInfo, h1])
            (by rw [add_error, add_message_reportErrors, h2])]
      rw [add_error, add_message_eq ctx _ _ h1 h2]
      simp [unrecognized_request_msgs, request_flags, hf]
    · rw [if_neg hf]
      rw [ih (f0 ||| get_uvc_request_by_name t) ctx h1 h2]
      simp [unrecognized_request_msgs, request_flags, hf, Nat.lor_assoc]

/-- Helper: `process_constant` on a fresh-or-duplicate name with type
attribute `guid` reduces to the duplicate check; in the fresh case the
value text is decoded by `guid_to_byte_array` with no validation. -/
theorem process_constant_guid_eq (name v : List Char) (ctx : ParseContext) :
    process_constant ⟨some name, some ("guid".toList), some v⟩ ctx =
      if (lookup_constant name ConstantType.CT_INVALID ctx.constants).isSome then
        (C_PARSE_ERROR, add_error ctx (MsgText.constantDuplicate name))
      else
        (C_SUCCESS,
         { ctx with constants :=
             ⟨ConstantType.CT_GUID, name, 0, guid_to_byte_array v⟩ :: ctx.constants }) := rfl

/-- C2 counterexample: the Control Registry is claimed to hold exactly
one entry for a control declaration after any number of passes; two
passes over a document with a single control declaration leave two
entries, not one. -/
theorem registry_two_passes_two_entries :
    (runPasses one_control_doc [tr_ok, tr_ok] false dynctrl_init_ctx).controls.length = 2 ∧
    (runPasses one_control_doc [tr_ok, tr_ok] false dynctrl_init_ctx).controls.length ≠ 1 := by
  decide

/-- C2 (amended): `process_control` inserts a registry entry on every
pass on which the declaration parses — there is no first-encounter check
— so after N passes over a document with one control declaration the
registry holds N identical entries for it, whatever each pass's transport
reported (the control is also applied to the device on every pass). -/
theorem registry_gains_entry_every_pass (trs : List Transport) (ign : Bool) :
    (runPasses one_control_doc trs ign dynctrl_init_ctx).controls =
      List.replicate trs.length xu1 := by
  rw [runPasses_one_control]
  simp [dynctrl_init_ctx]

/-- C3 counterexample: the overall session result is claimed to be
success whenever at least one device was successfully applied to,
regardless of order; with a succeeding device followed by one whose
probe reports no dynamic-control support, one device succeeds yet the
session returns `C_NOT_IMPLEMENTED`. -/
theorem last_device_failure_masks_earlier_success :
    successful_devices empty_doc false [dev_good, dev_probe_ok] dynctrl_init_ctx = 1 ∧
    (c_add_control_mappings_loop empty_doc false [dev_good, dev_probe_ok]
        dynctrl_init_ctx).1 = C_NOT_IMPLEMENTED ∧
    (c_add_control_mappings_loop empty_doc false [dev_good, dev_probe_ok]
        dynctrl_init_ctx).1 ≠ C_SUCCESS := by
  decide

/-- C3 (amended): when the per-device loop completes with zero
successfully applied-to devices the overall result is `C_INVALID_DEVICE`
(`NoSupportedDevice`); when at least one device succeeded, the overall
result equals the result of the last device actually attempted — so it is
success whenever the trailing attempted device succeeded (devices after
it that are skipped without being attempted do not disturb it), but an
attempted failure after the last success masks the success. -/
theorem session_result_policy (doc : DynctrlDoc) (ign : Bool) (ctx : ParseContext) :
    (∀ devs : List CDevice,
       successful_devices doc ign devs ctx = 0 →
       (c_add_control_mappings_loop doc ign devs ctx).1 = C_INVALID_DEVICE) ∧
    (∀ (devs rest : List CDevice) (d : CDevice),
       d.driver = "uvcvideo".toList → d.openOk = true → d.v4l2OpenOk = true →
       device_supports_dynctrl d.probe = C_SUCCESS →
       (∀ d' ∈ rest, d'.driver ≠ "uvcvideo".toList ∨ d'.openOk = false) →
       (c_add_control_mappings_loop doc ign (devs ++ d :: rest) ctx).1 = C_SUCCESS) := by
  constructor
  · intro devs h
    unfold c_add_control_mappings_loop
    dsimp only
    unfold successful_devices at h
    rw [h]
    rfl
  · intro devs rest d hdrv hopen hv4l2 hsupp hrest
    unfold c_add_control_mappings_loop
    dsimp only
    rw [List.foldl_append, List.foldl_cons]
    rcases hst : devs.foldl (device_step doc ign) (C_SUCCESS, 0, ctx) with ⟨r0, n0, c0⟩
    rcases hd : device_step doc ign (r0, n0, c0) d with ⟨r1, n1, c1⟩
    have happ := device_step_applied_success doc ign r0 n0 c0 d hdrv hopen hv4l2 hsupp
    rw [hd] at happ
    obtain ⟨hr1, hn1⟩ := happ
    simp only at hr1 hn1
    subst hr1 hn1
    have hskip := foldl_skipped_devices doc ign rest hrest C_SUCCESS (n0 + 1) c1
    simp [Nat.succ_ne_zero, hskip.1, hskip.2]

/-- C3 witness: one skipped device yields zero successes and
`C_INVALID_DEVICE`; a succeeding device followed by a skipped one yields
`C_SUCCESS`. -/
theorem session_result_policy_witness :
    successful_devices empty_doc false [dev_other_driver] dynctrl_init_ctx = 0 ∧
    (c_add_control_mappings_loop empty_doc false [dev_other_driver] dynctrl_init_ctx).1 =
      C_INVALID_DEVICE ∧
    (c_add_control_mappings_loop empty_doc false ([] ++ dev_good :: [dev_other_driver])
        dynctrl_init_ctx).1 = C_SUCCESS := by
  refine ⟨by decide, ?_, ?_⟩
  · exact (session_result_policy empty_doc false dynctrl_init_ctx).1 [dev_other_driver] (by decide)
  · exact (session_result_policy empty_doc false dynctrl_init_ctx).2 [] [dev_other_driver]
      dev_good rfl rfl rfl (by decide) (by decide)

/-- C4 counterexample: an unrecognized request token is claimed to
produce a warning-level diagnostic and not an error-level one; the
diagnostic `process_control` appends for the unrecognized token of
`c4_node` has severity error. -/
theorem unrecognized_request_diagnostic_is_error_level :
    ((process_control c4_node tr_ok false dynctrl_init_ctx).2.messages.map
        fun m => m.severity) = [CDynctrlMessageSeverity.error] ∧
    CDynctrlMessageSeverity.error ≠ CDynctrlMessageSeverity.warning := by
  decide

/-- C4 (amended): for every control declaration whose structural fields
(id, entity, selector, index, size) are valid, each request token that is
not one of the six recognized requests causes exactly one error-level
diagnostic to be appended (not a hard failure), and the control is still
declared into the registry — with only the recognized tokens' flags plus
`AUTO_UPDATE` — even when zero request tokens were recognized. -/
theorem unrecognized_requests_still_declare (node : ControlNode) (ign : Bool)
    (ctx : ParseContext) (cid : List Char) (ent : List Nat) (selv idxv sizev : Int)
    (reqs : List (Option (List Char)))
    (hid : node.id = some cid)
    (hent : lookup_or_convert_to_guid node.entity ctx.constants = some ent)
    (hsel : lookup_or_convert_to_integer node.selector ctx.constants = some selv)
    (hidx : lookup_or_convert_to_integer node.index ctx.constants = some idxv)
    (hsize : lookup_or_convert_to_integer node.size ctx.constants = some sizev)
    (hsz : is_valid_size sizev 65535 = true)
    (hreqs : node.requests = some reqs)
    (hinfo : ctx.hasInfo = true) (hrep : ctx.reportErrors = true) :
    (process_control node tr_ok ign ctx).1 = C_SUCCESS ∧
    (process_control node tr_ok ign ctx).2.controls =
      (⟨cid, ent, toU8 selv, toU8 idxv, toU16 sizev,
        request_flags reqs ||| UVC_CTRL_FLAG_AUTO_UPDATE⟩ : UVCXUControl) :: ctx.controls ∧
    (process_control node tr_ok ign ctx).2.messages =
      ctx.messages ++ unrecognized_request_msgs reqs := by
  unfold process_control
  rw [hid, hent, hsel, hidx, hsize, hreqs]
  dsimp only
  rw [hsz]
  rw [request_fold_eq reqs 0 ctx hinfo hrep, Nat.zero_or]
  simp [tr_ok, ioctl_fails]

/-- C4 witness: the control `c4_node`, whose single request token
`GET_FOO` is unrecognized, is still declared with result `C_SUCCESS`,
registry entry carrying only `AUTO_UPDATE`, and one diagnostic per
unrecognized token. -/
theorem unrecognized_requests_still_declare_witness :
    (process_control c4_node tr_ok false dynctrl_init_ctx).1 = C_SUCCESS ∧
    (process_control c4_node tr_ok false dynctrl_init_ctx).2.controls =
      (⟨"xu2".toList, xu1_entity, toU8 1, toU8 0, toU16 2,
        request_flags [some ("GET_FOO".toList)] ||| UVC_CTRL_FLAG_AUTO_UPDATE⟩ : UVCXUControl)
        :: dynctrl_init_ctx.controls ∧
    (process_control c4_node tr_ok false dynctrl_init_ctx).2.messages =
      dynctrl_init_ctx.messages ++ unrecognized_request_msgs [some ("GET_FOO".toList)] := by
  exact unrecognized_requests_still_declare c4_node false dynctrl_init_ctx
    ("xu2".toList) xu1_entity 1 0 2 [some ("GET_FOO".toList)]
    rfl (by decide) (by decide) (by decide) (by decide) (by decide) rfl rfl rfl

/-- C6: resolution of a text as integer or GUID tries the literal parse
first — a valid literal yields the parsed value and the symbol table is
never consulted (the result is independent of the table); on a failed
literal parse the text is looked up filtered by the expected kind, so a
name defined only with the other kind is treated as not found, and when
both the literal parse and the lookup fail (or the text is missing) the
resolution fails. -/
theorem resolution_literal_first (s : List Char) (v : Int) (cs : List Constant) :
    (is_valid_integer_string (some s) = some v →
      lookup_or_convert_to_integer (some s) cs = some v ∧
      lookup_or_convert_to_integer (some s) cs = lookup_or_convert_to_integer (some s) []) ∧
    (is_valid_guid s = true →
      lookup_or_convert_to_guid (some s) cs = some (guid_to_byte_array s) ∧
      lookup_or_convert_to_guid (some s) cs = lookup_or_convert_to_guid (some s) []) ∧
    (is_valid_integer_string (some s) = none →
      lookup_or_convert_to_integer (some s) cs =
        (lookup_constant s ConstantType.CT_INTEGER cs).map fun c => c.intValue) ∧
    (is_valid_guid s = false →
      lookup_or_convert_to_guid (some s) cs =
        (lookup_constant s ConstantType.CT_GUID cs).map fun c => c.guidValue) ∧
    (is_valid_integer_string (some s) = none →
      (∀ c ∈ cs, ¬(c.name = s ∧ c.type = ConstantType.CT_INTEGER)) →
      lookup_or_convert_to_integer (some s) cs = none) ∧
    (is_valid_guid s = false →
      (∀ c ∈ cs, ¬(c.name = s ∧ c.type = ConstantType.CT_GUID)) →
      lookup_or_convert_to_guid (some s) cs = none) ∧
    lookup_or_convert_to_integer none cs = none ∧
    lookup_or_convert_to_guid none cs = none := by
  refine ⟨?_, ?_, ?_, ?_, ?_, ?_, rfl, rfl⟩
  · intro h
    exact ⟨lookup_or_convert_to_integer_literal s v cs h,
      by rw [lookup_or_convert_to_integer_literal s v cs h,
             lookup_or_convert_to_integer_literal s v [] h]⟩
  · intro h
    exact ⟨lookup_or_convert_to_guid_literal s cs h,
      by rw [lookup_or_convert_to_guid_literal s cs h,
             lookup_or_convert_to_guid_literal s [] h]⟩
  · intro h
    unfold lookup_or_convert_to_integer
    dsimp only
    rw [h]
    cases hl : lookup_constant s ConstantType.CT_INTEGER cs <;> simp [hl]
  · intro h
    unfold lookup_or_convert_to_guid
    dsimp only
    rw [h]
    cases hl : lookup_constant s ConstantType.CT_GUID cs <;> simp [hl]
  · intro h hnone
    unfold lookup_or_convert_to_integer
    dsimp only
    rw [h, lookup_constant_filtered_none s ConstantType.CT_INTEGER cs (by decide) hnone]
  · intro h hnone
    unfold lookup_or_convert_to_guid
    dsimp only
    rw [h, lookup_constant_filtered_none s ConstantType.CT_GUID cs (by decide) hnone]
    rfl

/-- C6 witness: the literal `0x2A` resolves to 42 with a table present
(no lookup), and the name `FOO`, defined only as an integer constant,
fails to resolve as a GUID. -/
theorem resolution_literal_first_witness :
    is_valid_integer_string (some ("0x2A".toList)) = some 42 ∧
    lookup_or_convert_to_integer (some ("0x2A".toList))
      [⟨ConstantType.CT_INTEGER, "FOO".toList, 7, List.replicate 16 0⟩] = some 42 ∧
    is_valid_guid ("FOO".toList) = false ∧
    lookup_or_convert_to_guid (some ("FOO".toList))
      [⟨ConstantType.CT_INTEGER, "FOO".toList, 7, List.replicate 16 0⟩] = none := by
  refine ⟨by decide, ?_, by decide, ?_⟩
  · exact ((resolution_literal_first ("0x2A".toList) 42
      [⟨ConstantType.CT_INTEGER, "FOO".toList, 7, List.replicate 16 0⟩]).1 (by decide)).1
  · exact (resolution_literal_first ("FOO".toList) 0
      [⟨ConstantType.CT_INTEGER, "FOO".toList, 7, List.replicate 16 0⟩]).2.2.2.2.2.1
      (by decide) (by decide)

/-- C10: declaring a constant with type `guid` validates nothing about
the value text: for every non-null value text (under a fresh name) the
declaration succeeds and stores the hex decode of the fixed character
positions that `guid_to_byte_array` reads (all within 0..35); and there
is a value text shorter than 36 characters for which that decode reads
outside the string's allocation — the in-bounds precondition is not
established by the caller. -/
theorem guid_constant_value_unvalidated (name v : List Char) (ctx : ParseContext)
    (hfresh : lookup_constant name ConstantType.CT_INVALID ctx.constants = none) :
    (process_constant ⟨some name, some ("guid".toList), some v⟩ ctx).1 = C_SUCCESS ∧
    (process_constant ⟨some name, some ("guid".toList), some v⟩ ctx).2.constants =
      ⟨ConstantType.CT_GUID, name, 0, guid_to_byte_array v⟩ :: ctx.constants ∧
    (∃ w : List Char, w.length < 36 ∧ guid_to_byte_array_checked w = none) := by
  rw [process_constant_guid_eq, hfresh]
  exact ⟨rfl, rfl, "abc".toList, by decide, by decide⟩

/-- C10 witness: the three-character value text `abc` declares fine under
the fresh name `G`, stores `guid_to_byte_array "abc"`, and the
bounds-checked decode rejects a text of that length. -/
theorem guid_constant_value_unvalidated_witness :
    lookup_constant ("G".toList) ConstantType.CT_INVALID dynctrl_init_ctx.constants = none ∧
    (process_constant ⟨some ("G".toList), some ("guid".toList), some ("abc".toList)⟩
        dynctrl_init_ctx).1 = C_SUCCESS ∧
    (process_constant ⟨some ("G".toList), some ("guid".toList), some ("abc".toList)⟩
        dynctrl_init_ctx).2.constants =
      ⟨ConstantType.CT_GUID, "G".toList, 0, guid_to_byte_array ("abc".toList)⟩ ::
        dynctrl_init_ctx.constants ∧
    (∃ w : List Char, w.length < 36 ∧ guid_to_byte_array_checked w = none) := by
  have h := guid_constant_value_unvalidated ("G".toList) ("abc".toList) dynctrl_init_ctx
    (by decide)
  exact ⟨by decide, h.1, h.2.1, h.2.2⟩

end Webcam
